import Mathlib

/-!
Verification of the usb-hub-control library against its specification.

The Rust source (src/lib.rs, src/bin/uhubctrl.rs) is embedded shallowly:
machine integers become `Nat` (byte buffers are `List Nat` of values < 256),
control transfers become explicit arguments carrying the transferred bytes,
fallible paths return explicit result types, and a Rust panic (a failed
`assert!` or an out-of-bounds slice index) is a distinguished outcome,
separate from returning an error value.
-/

namespace UsbHubControl

/-! ## Port status word (lib.rs, `PortStatus`)

The Rust type is a tuple struct `PortStatus(pub u16)`; the single public
field `.0` is `raw` here. -/

structure PortStatus where
  raw : Nat
  deriving DecidableEq, Repr

namespace PortStatus

/-- Bit mask `CONNECTION` from lib.rs. -/
def CONNECTION : Nat := 0x0001

/-- Bit mask `ENABLE` from lib.rs. -/
def ENABLE : Nat := 0x0002

/-- Bit mask `POWER` from lib.rs. -/
def POWER : Nat := 0x0100

/-- Bit mask `SS_POWER` from lib.rs. -/
def SS_POWER : Nat := 0x0200

/-- Bit mask `SUPER_SPEED` from lib.rs (non-standard extension bit). -/
def SUPER_SPEED : Nat := 0x8000

/-- Embeds `PortStatus::from_field`: stores `value | SUPER_SPEED` when the
hub is SuperSpeed, the raw value otherwise. -/
def from_field (value : Nat) (super_speed : Bool) : PortStatus :=
  ⟨value ||| (if super_speed then SUPER_SPEED else 0)⟩

/-- Embeds the private helper `PortStatus::super_speed`. -/
def super_speed (s : PortStatus) : Bool :=
  s.raw &&& SUPER_SPEED == SUPER_SPEED

/-- Embeds `PortStatus::powered`. -/
def powered (s : PortStatus) : Bool :=
  if s.super_speed then
    s.raw &&& SS_POWER == SS_POWER
  else
    s.raw &&& POWER == POWER

/-- Embeds `PortStatus::connection`. -/
def connection (s : PortStatus) : Bool :=
  s.raw &&& CONNECTION == CONNECTION

end PortStatus

/-! ## Errors (src/error.rs, `Error`)

The payload-carrying variants (`UsbError`, `UsbTransferError`, `IoError`)
wrap external error values that never influence control flow in the
library, so they are carried without payload here. The `InvalidRespone`
spelling is the source's. -/

inductive Error where
  | UsbError
  | UsbTransferError
  | IoError
  | InvalidDeviceClass
  | InvalidRespone
  | InvalidPort
  deriving DecidableEq, Repr

/-- Outcome of one blocking control transfer, as seen by the library: the
bytes transferred on success (`data.length` is the reported length), or a
transport-level failure that the `?` operator propagates. -/
inductive Transfer where
  | ok (data : List Nat)
  | fail
  deriving DecidableEq, Repr

/-! ## Hub descriptor (lib.rs, `HubDescriptor`, `LogicalPowerSwitchingMode`) -/

/-- Embeds the `LogicalPowerSwitchingMode` enum. -/
inductive LogicalPowerSwitchingMode where
  | None
  | Common
  | IndividualPort
  deriving DecidableEq, Repr

/-- Embeds the `HubDescriptor` struct. -/
structure HubDescriptor where
  port_count : Nat
  characteristics : Nat
  deriving DecidableEq, Repr

/-- Embeds `HubDescriptor::logical_power_switching_mode`: match arms in
source order (individual-port first, then common, then the catch-all). -/
def HubDescriptor.logical_power_switching_mode (d : HubDescriptor) :
    LogicalPowerSwitchingMode :=
  match d.characteristics &&& 0x0003 with
  | 0x0001 => .IndividualPort
  | 0x0000 => .Common
  | _ => .None

/-- Result of `Hub::get_hub_description`. -/
inductive HubDescriptorResult where
  | ok (d : HubDescriptor)
  | err (e : Error)
  deriving DecidableEq, Repr

/-- Embeds `Hub::get_hub_description`. The transfer requests 12 bytes for a
SuperSpeed hub and 9 otherwise; a response of any other length is rejected
as `InvalidRespone`. Byte 2 is the port count (clamped to 0 above 15) and
bytes 3..4 are the little-endian characteristics word. -/
def get_hub_description (super_speed : Bool) (t : Transfer) : HubDescriptorResult :=
  let request_size := if super_speed then 12 else 9
  match t with
  | .fail => .err .UsbTransferError
  | .ok data =>
    if data.length ≠ request_size then
      .err .InvalidRespone
    else
      .ok ⟨if data.getD 2 0 ≤ 15 then data.getD 2 0 else 0,
           data.getD 3 0 + 256 * data.getD 4 0⟩

/-! ## Binary Object Store descriptor (lib.rs, `BinaryObjectStoreDescriptor`)

The Rust struct stores a fixed `[u8; 256]` backing array plus the valid
length; the meaningful prefix `data[..length]` is represented here as the
list `data`. Functions that can panic in Rust (a failed `assert!` or an
out-of-bounds slice index) return `none` for the panicking executions. -/

structure BinaryObjectStoreDescriptor where
  data : List Nat
  deriving DecidableEq, Repr

namespace BinaryObjectStoreDescriptor

/-- Embeds `BinaryObjectStoreDescriptor::from_data`. The four `assert!`
checks (length at least 5, byte 0 = 5, byte 1 = 0x0f, embedded total length
equal to the buffer length) and the `copy_from_slice` into the 256-byte
backing array (which panics when the buffer is longer than 256) collapse to
the single guard; `none` is a panic. -/
def from_data (data : List Nat) : Option BinaryObjectStoreDescriptor :=
  if 5 ≤ data.length ∧ data.getD 0 0 = 5 ∧ data.getD 1 0 = 0x0f ∧
      data.getD 2 0 + 256 * data.getD 3 0 = data.length ∧ data.length ≤ 256 then
    some ⟨data⟩
  else
    none

/-- Embeds the capability-record loop of
`BinaryObjectStoreDescriptor::container_id`. `pos` is the offset of `part`
within `buf` and the second argument the remaining iteration count. Outer
`none` is a panic: an out-of-bounds `part[0]`/`part[1]`/`part[2]` read, the
failed `assert!` on the descriptor type, an out-of-bounds `buf[4..20]`
slice, or an out-of-bounds advance `part[length..]`. On a hit the code
copies `buf[4..20]` — bytes 4..20 of the whole buffer. -/
def capability_walk (buf : List Nat) : Nat → Nat → Option (Option (List Nat))
  | _, 0 => some none
  | pos, count + 1 =>
    match buf.get? pos, buf.get? (pos + 1) with
    | some len, some dtype =>
      if dtype = 0x10 then
        match buf.get? (pos + 2) with
        | some ctype =>
          if ctype = 0x04 ∧ len = 20 then
            if 20 ≤ buf.length then some (some ((buf.drop 4).take 16)) else none
          else if pos + len ≤ buf.length then
            capability_walk buf (pos + len) count
          else
            none
        | none => none
      else
        none
    | _, _ => none

/-- Embeds `BinaryObjectStoreDescriptor::container_id`: reads the
capability count from byte 4 and walks the records starting at offset 5.
The guard models the `buf[4]` read and `&buf[5..]` slice, which need at
least 5 bytes (guaranteed for values built by `from_data`). -/
def container_id (b : BinaryObjectStoreDescriptor) : Option (Option (List Nat)) :=
  if 5 ≤ b.data.length then
    capability_walk b.data 5 (b.data.getD 4 0)
  else
    none

/-- Sufficient condition for the capability walk to finish without a panic:
each iteration can read its three header bytes, sees descriptor type 0x10,
and either hits a Container ID record inside a buffer of at least 20 bytes
or advances without leaving the buffer. -/
def walk_ok (buf : List Nat) : Nat → Nat → Bool
  | _, 0 => true
  | pos, count + 1 =>
    decide (pos + 2 < buf.length) && (buf.getD (pos + 1) 0 == 0x10) &&
      (if buf.getD (pos + 2) 0 == 0x04 && buf.getD pos 0 == 20 then
        decide (20 ≤ buf.length)
      else
        decide (pos + buf.getD pos 0 ≤ buf.length) &&
          walk_ok buf (pos + buf.getD pos 0) count)

end BinaryObjectStoreDescriptor

/-- Result of `Hub::get_bos_description`: a decoded descriptor, an error
value, or a panic raised inside `from_data`. -/
inductive BosResult where
  | ok (b : BinaryObjectStoreDescriptor)
  | err (e : Error)
  | panicked
  deriving DecidableEq, Repr

/-- Embeds `Hub::get_bos_description`: a transfer failure propagates, a
response shorter than 5 bytes is `InvalidRespone`, and otherwise the buffer
is handed to `from_data` (whose assertion failures are panics). -/
def get_bos_description (t : Transfer) : BosResult :=
  match t with
  | .fail => .err .UsbTransferError
  | .ok data =>
    if 5 ≤ data.length then
      match BinaryObjectStoreDescriptor.from_data data with
      | some b => .ok b
      | none => .panicked
    else
      .err .InvalidRespone

/-! ## Hub construction and operations (lib.rs, `Hub`) -/

/-- The pure content of a constructed `Hub` (the `DeviceInfo` and device
handle carry no further decoded state). -/
structure Hub where
  hub_descriptor : HubDescriptor
  super_speed : Bool
  container_id : Option (List Nat)
  deriving DecidableEq, Repr

/-- Outcome of `Hub::from_device_info`. -/
inductive HubResult where
  | ok (h : Hub)
  | err (e : Error)
  | panicked
  deriving DecidableEq, Repr

/-- Embeds `Hub::from_device_info` as a function of the device class, the
reported USB version, whether opening the device succeeds, and the two
control-transfer outcomes. A BOS transfer error is tolerated (no Container
ID), but a panic inside `from_data` or `container_id` propagates. -/
def from_device_info (class_code : Nat) (usb_version : Nat) (open_ok : Bool)
    (hub_transfer bos_transfer : Transfer) : HubResult :=
  if class_code ≠ 9 then
    .err .InvalidDeviceClass
  else if open_ok = false then
    .err .UsbError
  else
    let ss := decide (0x0300 < usb_version)
    match get_hub_description ss hub_transfer with
    | .err e => .err e
    | .ok hd =>
      match get_bos_description bos_transfer with
      | .ok bos =>
        match BinaryObjectStoreDescriptor.container_id bos with
        | some cid => .ok ⟨hd, ss, cid⟩
        | none => .panicked
      | .err _ => .ok ⟨hd, ss, none⟩
      | .panicked => .panicked

/-- Outcome of `Hub::port_status`. -/
inductive PortStatusResult where
  | ok (s : PortStatus)
  | err (e : Error)
  deriving DecidableEq, Repr

/-- Embeds `Hub::port_status`: the port bound is checked before any
transfer; on a 4-byte response the low little-endian word is the status
field, any other length is a transfer fault. -/
def port_status (d : HubDescriptor) (super_speed : Bool) (port : Nat)
    (t : Transfer) : PortStatusResult :=
  if port > d.port_count then
    .err .InvalidPort
  else
    match t with
    | .fail => .err .UsbTransferError
    | .ok data =>
      if data.length = 4 then
        .ok (PortStatus.from_field (data.getD 0 0 + 256 * data.getD 1 0) super_speed)
      else
        .err .UsbTransferError

/-- Outcome of `Hub::set_port_power`. -/
inductive SetPowerResult where
  | ok
  | err (e : Error)
  deriving DecidableEq, Repr

/-- Embeds `Hub::set_port_power`: the switching-mode check precedes the
port-bound check, and both precede the control-OUT transfer (whose request
code depends on the `on` argument — named `power_on` here because `on` is
reserved in Lean — but whose outcome does not). -/
def set_port_power (d : HubDescriptor) (port : Nat) (power_on : Bool)
    (t : Transfer) : SetPowerResult :=
  if d.logical_power_switching_mode ≠ .IndividualPort then
    .err .InvalidPort
  else if port > d.port_count then
    .err .InvalidPort
  else
    match t with
    | .fail => .err .UsbTransferError
    | .ok _ => .ok

/-! ## Spec-modelled BOS encoder

The repository contains no encoder; the round-trip property of the spec
needs one. -/

/-- Modelled from the spec: a BOS buffer holding a single Container ID
capability record. Header per the spec: length 5, descriptor type 0x0F,
little-endian total length, one device capability. Record per the spec's
words: the 3-byte header `{length = 20, descriptor_type = 0x10,
capability_type = 0x04}` followed directly by the 16-byte payload. For a
16-byte payload the buffer is 24 bytes long, so the total-length field is
24. -/
def encode_container_id_bos (payload : List Nat) : List Nat :=
  [5, 0x0f, 24, 0, 1] ++ [20, 0x10, 0x04] ++ payload

/-! ## Location addressing (src/bin/uhubctrl.rs, `main`)

The location string is matched against the anchored regular expression
with capture groups busnum = `[[:digit:]]+` and
chain = `(?:(?:[[:digit:]]+)[.])*(?:[[:digit:]]+)`, separated by a literal
dash. A match forces the string to contain exactly one dash (neither
capture group can contain one), the part before it to be one or more
ASCII digits, and the part after it to split at dots into segments that
are each one or more ASCII digits. -/

/-- Splits a character list at every occurrence of `sep`; `n` separators
yield `n + 1` (possibly empty) parts, as Rust's `str::split`. -/
def split_on_char (sep : Char) : List Char → List (List Char)
  | [] => [[]]
  | c :: rest =>
    let r := split_on_char sep rest
    if c = sep then
      [] :: r
    else
      match r with
      | [] => [[c]]
      | h :: t => (c :: h) :: t

/-- Model of `location_regex.captures`: the two capture groups on a match,
`none` otherwise. -/
def regex_captures (s : List Char) : Option (List Char × List Char) :=
  match split_on_char '-' s with
  | [b, c] =>
    if !b.isEmpty && b.all Char.isDigit &&
        (split_on_char '.' c).all (fun seg => !seg.isEmpty && seg.all Char.isDigit) then
      some (b, c)
    else
      none
  | _ => none

/-- Whether the location string matches the grammar at all. -/
def location_grammar_match (s : List Char) : Bool :=
  (regex_captures s).isSome

/-- Decimal value of a digit string. -/
def digits_value (s : List Char) : Nat :=
  s.foldl (fun acc c => acc * 10 + (c.toNat - 48)) 0

/-- Rust `str::parse::<u8>`: succeeds exactly on a nonempty all-digit
string whose value fits in a byte (the callers below only apply it to
digit strings, where sign handling is irrelevant). -/
def parse_u8 (s : List Char) : Option Nat :=
  if !s.isEmpty && s.all Char.isDigit && decide (digits_value s ≤ 255) then
    some (digits_value s)
  else
    none

/-- Outcome of the location-parsing block in `main`: no key, a panic (the
`unwrap` on the busnum parse), or a key. -/
inductive LocationOutcome where
  | noMatch
  | panicked
  | key (k : List Nat)
  deriving DecidableEq, Repr

/-- Embeds the location-parsing block of `main` in uhubctrl.rs: on a regex
match the busnum capture is parsed with `unwrap` (a panic when it does not
fit a byte) and the chain capture is split at dots and parsed through
`filter_map`, which silently drops segments that do not fit a byte. -/
def parse_location (s : List Char) : LocationOutcome :=
  match regex_captures s with
  | some (b, c) =>
    match parse_u8 b with
    | some busnum => .key (busnum :: (split_on_char '.' c).filterMap parse_u8)
    | none => .panicked
  | none => .noMatch

/-- Testing a mask `2 ^ k` with `==` reads exactly bit `k`. -/
theorem and_mask_beq (n k : Nat) : (n &&& 2 ^ k == 2 ^ k) = n.testBit k := by
  rw [Nat.and_two_pow]
  cases h : n.testBit k
  · have h2 : 0 < 2 ^ k := Nat.pos_pow_of_pos k (by norm_num)
    simp [Nat.ne_of_lt h2]
  · simp

/-- The `SS_POWER` mask is bit 9. -/
theorem SS_POWER_eq : PortStatus.SS_POWER = 2 ^ 9 := by norm_num [PortStatus.SS_POWER]

/-- The `POWER` mask is bit 8. -/
theorem POWER_eq : PortStatus.POWER = 2 ^ 8 := by norm_num [PortStatus.POWER]

/-- The `SUPER_SPEED` mask is bit 15. -/
theorem SUPER_SPEED_eq : PortStatus.SUPER_SPEED = 2 ^ 15 := by
  norm_num [PortStatus.SUPER_SPEED]

/-- The stored word of `from_field` has bit 15 set exactly when the input
had it set or the super-speed flag was passed. -/
theorem from_field_testBit (v : Nat) (ss : Bool) (k : Nat) :
    (PortStatus.from_field v ss).raw.testBit k =
      (v.testBit k || (ss && Nat.testBit PortStatus.SUPER_SPEED k)) := by
  cases ss <;> simp [PortStatus.from_field, Nat.testBit_lor]

/-- The super-speed test reads bit 15 of the stored word. -/
theorem super_speed_eq_testBit (s : PortStatus) :
    s.super_speed = s.raw.testBit 15 :=
  and_mask_beq s.raw 15

/-- The powered test reads bit 9 or bit 8 of the stored word according to
bit 15 of the stored word. -/
theorem powered_eq_testBit (s : PortStatus) :
    s.powered = (if s.raw.testBit 15 then s.raw.testBit 9 else s.raw.testBit 8) := by
  rw [PortStatus.powered, super_speed_eq_testBit, SS_POWER_eq, POWER_eq]
  cases h : s.raw.testBit 15
  · simp only [h, Bool.false_eq_true, if_false]
    exact and_mask_beq s.raw 8
  · simp only [h, if_true]
    exact and_mask_beq s.raw 9

/-- Bit 15 of the `SUPER_SPEED` mask. -/
theorem SUPER_SPEED_testBit_15 : Nat.testBit PortStatus.SUPER_SPEED 15 = true := by
  decide

/-- Bit 9 of the `SUPER_SPEED` mask. -/
theorem SUPER_SPEED_testBit_9 : Nat.testBit PortStatus.SUPER_SPEED 9 = false := by
  decide

/-- Bit 8 of the `SUPER_SPEED` mask. -/
theorem SUPER_SPEED_testBit_8 : Nat.testBit PortStatus.SUPER_SPEED 8 = false := by
  decide

/-- The switching-mode decoder as a chain of conditionals on the masked
characteristics word. -/
theorem lpsm_cases (pc c : Nat) :
    (HubDescriptor.mk pc c).logical_power_switching_mode =
      (if c &&& 0x0003 = 1 then .IndividualPort
       else if c &&& 0x0003 = 0 then .Common
       else .None) := by
  unfold HubDescriptor.logical_power_switching_mode
  rcases hr : c &&& 0x0003 with _ | (_ | m)
  · rfl
  · rfl
  · rfl

/-- An in-bounds `get?` read returns the `getD` value. -/
theorem get?_eq_some_getD (l : List Nat) (i : Nat) (h : i < l.length) :
    l.get? i = some (l.getD i 0) := by
  rw [List.getD_eq_getElem?_getD, List.get?_eq_getElem?, List.getElem?_eq_getElem h]
  rfl

/-- Claim C2 counterexample: the raw word 0x8100 has bit 8 set, so the
claim requires powered() = true with super_speed = false, but the stored
word also has bit 15 set — the non-standard super-speed marker — so the
decoder consults bit 9 and returns false. -/
theorem C2_counterexample :
    (PortStatus.from_field 0x8100 false).powered = false ∧
    Nat.testBit 0x8100 8 = true := by
  exact ⟨by decide, by decide⟩

/-- Claim C2 (amended): for every status word with bit 15 clear, powered()
returns bit 9 of the word when the status was constructed with
super_speed = true and bit 8 when constructed with super_speed = false;
in particular the raw word 0x0201 yields powered() = true with
super_speed = true and powered() = false with super_speed = false. -/
theorem C2_powered_amended (v : Nat) (h : v.testBit 15 = false) :
    (PortStatus.from_field v true).powered = v.testBit 9 ∧
    (PortStatus.from_field v false).powered = v.testBit 8 ∧
    (PortStatus.from_field 0x0201 true).powered = true ∧
    (PortStatus.from_field 0x0201 false).powered = false := by
  refine ⟨?_, ?_, by decide, by decide⟩
  · rw [powered_eq_testBit]
    simp [from_field_testBit, h, SUPER_SPEED_testBit_15, SUPER_SPEED_testBit_9]
  · rw [powered_eq_testBit]
    simp [from_field_testBit, h]

/-- Claim C2 witness: the amended statement evaluated at the word 0x0051. -/
theorem C2_witness :
    Nat.testBit 0x0051 15 = false ∧
    ((PortStatus.from_field 0x0051 true).powered = Nat.testBit 0x0051 9 ∧
     (PortStatus.from_field 0x0051 false).powered = Nat.testBit 0x0051 8 ∧
     (PortStatus.from_field 0x0201 true).powered = true ∧
     (PortStatus.from_field 0x0201 false).powered = false) :=
  ⟨by decide, C2_powered_amended 0x0051 (by decide)⟩

/-- Claim C9 counterexample: for the raw word 0x8000 (bit 15 already set)
constructed with super_speed = true, the stored public field equals the
input word, so the field does not differ from the input for every
super_speed = true construction. -/
theorem C9_counterexample :
    (PortStatus.from_field 0x8000 true).raw = 0x8000 := by
  decide

/-- Claim C9 (amended): from_field encodes the super-speed flag by setting
bit 15 of the stored word itself (and stores the word unchanged when the
flag is false); consequently a raw word with bit 15 already set makes
powered() consult bit 9 even when constructed with super_speed = false;
and the stored public field differs from the raw input whenever
super_speed = true and bit 15 of the input is clear. -/
theorem C9_super_speed_bit_amended (v : Nat) :
    (PortStatus.from_field v true).raw.testBit 15 = true ∧
    (PortStatus.from_field v false).raw = v ∧
    (v.testBit 15 = true → (PortStatus.from_field v false).powered = v.testBit 9) ∧
    (v.testBit 15 = false → ((PortStatus.from_field v true).raw == v) = false) := by
  have hraw : (PortStatus.from_field v false).raw = v := by
    simp [PortStatus.from_field]
  have h15 : (PortStatus.from_field v true).raw.testBit 15 = true := by
    simp [from_field_testBit, SUPER_SPEED_testBit_15]
  refine ⟨h15, hraw, ?_, ?_⟩
  · intro h
    rw [powered_eq_testBit, hraw, h, if_pos rfl]
  · intro h
    rw [beq_eq_false_iff_ne]
    intro heq
    rw [heq, h] at h15
    exact Bool.false_ne_true h15

/-- Claim C9 witness: the amended statement evaluated at the words 0x8123
and 0x0123. -/
theorem C9_witness :
    (PortStatus.from_field 0x8123 true).raw.testBit 15 = true ∧
    (PortStatus.from_field 0x8123 false).raw = 0x8123 ∧
    (PortStatus.from_field 0x8123 false).powered = Nat.testBit 0x8123 9 ∧
    ((PortStatus.from_field 0x0123 true).raw == 0x0123) = false := by
  obtain ⟨a, b, c, _⟩ := C9_super_speed_bit_amended 0x8123
  exact ⟨a, b, c (by decide), (C9_super_speed_bit_amended 0x0123).2.2.2 (by decide)⟩

/-- Claim C5 counterexample: port 0 is not rejected — the guard only
rejects ports above port_count, so a status request for port 0 is issued
and its outcome depends on the transfer (a decoded status on a 4-byte
response, a transfer error on a failed transfer), never InvalidPort. -/
theorem C5_counterexample :
    port_status ⟨4, 1⟩ false 0 (.ok [1, 1, 0, 0]) =
      .ok (PortStatus.from_field 257 false) ∧
    port_status ⟨4, 1⟩ false 0 .fail = .err .UsbTransferError := by
  exact ⟨by decide, by decide⟩

/-- Claim C5 (amended): for every constructed hub and every port above
port_count, port_status fails with InvalidPort for every transfer outcome
(so without consulting the transfer); port 0 is not rejected. -/
theorem C5_port_status_range_amended (d : HubDescriptor) (ss : Bool) (port : Nat)
    (t : Transfer) (h : d.port_count < port) :
    port_status d ss port t = .err .InvalidPort := by
  simp [port_status, h]

/-- Claim C5 witness: the amended statement evaluated at port 5 on a
4-port hub. -/
theorem C5_witness :
    port_status ⟨4, 1⟩ false 5 (.ok [1, 1, 0, 0]) = .err .InvalidPort :=
  C5_port_status_range_amended ⟨4, 1⟩ false 5 (.ok [1, 1, 0, 0]) (by decide)

/-- Claim C6: when the logical power-switching mode is not IndividualPort,
set_port_power fails with InvalidPort for every port, every direction and
every transfer outcome (so without issuing the control-OUT transfer). -/
theorem C6_set_port_power_mode (d : HubDescriptor) (port : Nat) (power_on : Bool)
    (t : Transfer) (h : d.logical_power_switching_mode ≠ .IndividualPort) :
    set_port_power d port power_on t = .err .InvalidPort := by
  simp [set_port_power, h]

/-- Claim C6 witness: a hub in Common (ganged) mode, characteristics 0,
rejects an in-range port, and a hub with the reserved mode bits 0b10
rejects as well. -/
theorem C6_witness :
    set_port_power ⟨4, 0⟩ 2 true (.ok []) = .err .InvalidPort ∧
    set_port_power ⟨4, 2⟩ 3 false (.ok []) = .err .InvalidPort :=
  ⟨C6_set_port_power_mode ⟨4, 0⟩ 2 true (.ok []) (by decide),
   C6_set_port_power_mode ⟨4, 2⟩ 3 false (.ok []) (by decide)⟩

/-- Claim C7: for every 9-byte hub descriptor response, the decoded
port_count is byte 2 when at most 15 and 0 otherwise and the
characteristics field is the little-endian word at bytes 3..4; and the
switching mode depends only on the low two characteristics bits, with
0b00 mapping to Common, 0b01 to IndividualPort and anything else to the
unsupported mode. -/
theorem C7_hub_descriptor_decode (buf : List Nat) (pc c : Nat)
    (hlen : buf.length = 9) :
    get_hub_description false (.ok buf) =
      .ok ⟨if buf.getD 2 0 ≤ 15 then buf.getD 2 0 else 0,
           buf.getD 3 0 + 256 * buf.getD 4 0⟩ ∧
    (HubDescriptor.mk pc c).logical_power_switching_mode =
      (HubDescriptor.mk 0 (c &&& 0x0003)).logical_power_switching_mode ∧
    (c &&& 0x0003 = 0 →
      (HubDescriptor.mk pc c).logical_power_switching_mode = .Common) ∧
    (c &&& 0x0003 = 1 →
      (HubDescriptor.mk pc c).logical_power_switching_mode = .IndividualPort) ∧
    (2 ≤ c &&& 0x0003 →
      (HubDescriptor.mk pc c).logical_power_switching_mode = .None) := by
  have hmask : (c &&& 0x0003) &&& 0x0003 = c &&& 0x0003 := by
    rw [Nat.and_assoc]
    norm_num
  refine ⟨?_, ?_, ?_, ?_, ?_⟩
  · simp [get_hub_description, hlen]
  · rw [lpsm_cases, lpsm_cases, hmask]
  · intro h
    rw [lpsm_cases, h]
    rfl
  · intro h
    rw [lpsm_cases, h]
    rfl
  · intro h
    rw [lpsm_cases]
    rcases hr : c &&& 0x0003 with _ | (_ | m)
    · omega
    · omega
    · rfl

/-- Claim C7 witness: the statement evaluated on the buffer
[9, 0x29, 4, 1, 0, 0, 0, 0, 0] and characteristics word 2. -/
theorem C7_witness :
    get_hub_description false (.ok [9, 0x29, 4, 1, 0, 0, 0, 0, 0]) = .ok ⟨4, 1⟩ ∧
    (HubDescriptor.mk 7 2).logical_power_switching_mode = .None := by
  obtain ⟨h1, _, _, _, h5⟩ :=
    C7_hub_descriptor_decode [9, 0x29, 4, 1, 0, 0, 0, 0, 0] 7 2 (by decide)
  exact ⟨h1.trans (by decide), h5 (by decide)⟩

/-- Claim C3 counterexample: a 5-byte BOS buffer whose embedded total
length (6) disagrees with the actual length (5) makes decoding abort via
a failed assertion (a panic), not fail with an error value. -/
theorem C3_counterexample :
    get_bos_description (.ok [5, 0x0f, 6, 0, 0]) = .panicked := by
  decide

/-- Claim C3 (amended): a BOS response shorter than 5 bytes fails with the
InvalidRespone error (the spec's ProtocolMismatch); a response of at least
5 bytes whose byte 0 is not 5, whose byte 1 is not 0x0F, or whose embedded
total length disagrees with the actual buffer length makes decoding abort
via an assertion panic rather than return an error value; in every such
case no partially-parsed Container ID is returned. -/
theorem C3_bos_validation_amended (data : List Nat) :
    (data.length < 5 → get_bos_description (.ok data) = .err .InvalidRespone) ∧
    (5 ≤ data.length → data.getD 2 0 + 256 * data.getD 3 0 ≠ data.length →
      get_bos_description (.ok data) = .panicked) ∧
    (5 ≤ data.length → data.getD 0 0 ≠ 5 →
      get_bos_description (.ok data) = .panicked) ∧
    (5 ≤ data.length → data.getD 1 0 ≠ 0x0f →
      get_bos_description (.ok data) = .panicked) := by
  refine ⟨?_, ?_, ?_, ?_⟩
  · intro h
    simp [get_bos_description, show ¬5 ≤ data.length from by omega]
  · intro h5 hne
    have hnone : BinaryObjectStoreDescriptor.from_data data = none := by
      rw [BinaryObjectStoreDescriptor.from_data, if_neg]
      tauto
    simp [get_bos_description, h5, hnone]
  · intro h5 hne
    have hnone : BinaryObjectStoreDescriptor.from_data data = none := by
      rw [BinaryObjectStoreDescriptor.from_data, if_neg]
      tauto
    simp [get_bos_description, h5, hnone]
  · intro h5 hne
    have hnone : BinaryObjectStoreDescriptor.from_data data = none := by
      rw [BinaryObjectStoreDescriptor.from_data, if_neg]
      tauto
    simp [get_bos_description, h5, hnone]

/-- Claim C3 witness: the amended statement evaluated at a 3-byte response
and at a 5-byte response whose total-length field reads 7. -/
theorem C3_witness :
    get_bos_description (.ok [0, 0, 0]) = .err .InvalidRespone ∧
    get_bos_description (.ok [5, 0x0f, 7, 0, 0]) = .panicked :=
  ⟨(C3_bos_validation_amended [0, 0, 0]).1 (by decide),
   (C3_bos_validation_amended [5, 0x0f, 7, 0, 0]).2.1 (by decide) (by decide)⟩

/-- Claim C4 counterexample: a hub-class device whose hub descriptor reads
normally but whose BOS read returns 5 bytes with a mismatched total-length
field makes hub construction abort via the assertion panic inside the BOS
decode, instead of succeeding with no Container ID. -/
theorem C4_counterexample :
    from_device_info 9 0x0210 true (.ok [9, 0x29, 4, 1, 0, 0, 0, 0, 0])
      (.ok [5, 0x0f, 6, 0, 0]) = .panicked := by
  decide

/-- Claim C4 (amended): for a hub-class device, a failure of the BOS
descriptor read — a transfer error or a response shorter than 5 bytes — is
non-fatal: hub construction succeeds with container_id = none; but a BOS
response of at least 5 bytes that fails header validation aborts
construction through the decoder's assertion panic. -/
theorem C4_bos_read_failure_nonfatal (usb_version : Nat) (ht bt : Transfer)
    (hd : HubDescriptor)
    (hhub : get_hub_description (decide (0x0300 < usb_version)) ht = .ok hd)
    (hbos : bt = .fail ∨ ∃ data, bt = .ok data ∧ data.length < 5) :
    from_device_info 9 usb_version true ht bt =
      .ok ⟨hd, decide (0x0300 < usb_version), none⟩ := by
  have hb : get_bos_description bt = .err .UsbTransferError ∨
      get_bos_description bt = .err .InvalidRespone := by
    rcases hbos with h | ⟨data, rfl, hlen⟩
    · rw [h]
      exact Or.inl rfl
    · exact Or.inr (by simp [get_bos_description, show ¬5 ≤ data.length from by omega])
  rcases hb with h | h <;> simp [from_device_info, hhub, h]

/-- Claim C4 witness: the amended statement evaluated with a failing BOS
transfer on a USB 2.1 four-port hub. -/
theorem C4_witness :
    from_device_info 9 0x0210 true (.ok [9, 0x29, 4, 1, 0, 0, 0, 0, 0]) .fail =
      .ok ⟨⟨4, 1⟩, false, none⟩ :=
  (C4_bos_read_failure_nonfatal 0x0210 (.ok [9, 0x29, 4, 1, 0, 0, 0, 0, 0]) .fail
      ⟨4, 1⟩ (by decide) (Or.inl rfl)).trans (by decide)

/-- Claim C1: the round-trip fails on the code. Encoding the 16-byte
payload 0,1,...,15 into a BOS buffer with a single Container ID capability
record and decoding it passes header validation but returns bytes 4..20 of
the whole buffer — the capability-count byte, the record's 3-byte header
and the first 12 payload bytes — instead of the payload, because the
decoder copies from the absolute offset 4 rather than from the record. -/
theorem C1_container_id_code_bug :
    BinaryObjectStoreDescriptor.from_data
        (encode_container_id_bos [0, 1, 2, 3, 4, 5, 6, 7, 8, 9, 10, 11, 12, 13, 14, 15]) =
      some ⟨encode_container_id_bos [0, 1, 2, 3, 4, 5, 6, 7, 8, 9, 10, 11, 12, 13, 14, 15]⟩ ∧
    BinaryObjectStoreDescriptor.container_id
        ⟨encode_container_id_bos [0, 1, 2, 3, 4, 5, 6, 7, 8, 9, 10, 11, 12, 13, 14, 15]⟩ =
      some (some [1, 20, 16, 4, 0, 1, 2, 3, 4, 5, 6, 7, 8, 9, 10, 11]) ∧
    decide (([1, 20, 16, 4, 0, 1, 2, 3, 4, 5, 6, 7, 8, 9, 10, 11] : List Nat) =
      [0, 1, 2, 3, 4, 5, 6, 7, 8, 9, 10, 11, 12, 13, 14, 15]) = false := by
  exact ⟨by decide, by decide, by decide⟩

/-- Claim C8 counterexample: "2-300.3" matches the grammar, its chain
segment 300 does not fit a byte, and the code silently drops it, yielding
the key [2, 3] instead of no match; "300-1" matches the grammar, its
busnum does not fit a byte, and the unwrap panics instead of yielding no
match. -/
theorem C8_counterexample :
    parse_location ("2-300.3".toList) = .key [2, 3] ∧
    parse_location ("300-1".toList) = .panicked := by
  exact ⟨by decide, by decide⟩

/-- Claim C8 (amended): "2-1.3" parses to the key [2, 1, 3]; every string
that does not match the grammar — including "2-", "x-1" and "2-1..3" —
yields no match; but for grammar-matching strings, a chain segment that
does not fit a byte is dropped from the key and a busnum that does not fit
a byte panics. -/
theorem C8_location_amended (s : List Char) (h : location_grammar_match s = false) :
    parse_location s = .noMatch ∧
    parse_location ("2-1.3".toList) = .key [2, 1, 3] ∧
    parse_location ("2-".toList) = .noMatch ∧
    parse_location ("x-1".toList) = .noMatch ∧
    parse_location ("2-1..3".toList) = .noMatch := by
  refine ⟨?_, by decide, by decide, by decide, by decide⟩
  cases hr : regex_captures s with
  | none => simp [parse_location, hr]
  | some v =>
    rw [location_grammar_match, hr] at h
    simp at h

/-- Claim C8 witness: the amended statement evaluated at the
non-matching string "hello". -/
theorem C8_witness :
    parse_location ("hello".toList) = .noMatch ∧
    parse_location ("2-1.3".toList) = .key [2, 1, 3] := by
  obtain ⟨h1, h2, _⟩ := C8_location_amended ("hello".toList) (by decide)
  exact ⟨h1, h2⟩

/-- When `walk_ok` holds, the capability walk terminates without a panic. -/
theorem capability_walk_total (buf : List Nat) :
    ∀ count pos, BinaryObjectStoreDescriptor.walk_ok buf pos count = true →
      (BinaryObjectStoreDescriptor.capability_walk buf pos count).isSome = true := by
  intro count
  induction count with
  | zero =>
    intro pos _
    rfl
  | succ n ih =>
    intro pos h
    simp only [BinaryObjectStoreDescriptor.walk_ok, Bool.and_eq_true] at h
    obtain ⟨⟨ha, hbb⟩, hcc⟩ := h
    have h1 : pos + 2 < buf.length := of_decide_eq_true ha
    have h2 : buf.getD (pos + 1) 0 = 0x10 := eq_of_beq hbb
    simp only [BinaryObjectStoreDescriptor.capability_walk,
      get?_eq_some_getD buf pos (by omega),
      get?_eq_some_getD buf (pos + 1) (by omega),
      get?_eq_some_getD buf (pos + 2) (by omega)]
    by_cases hc : buf.getD (pos + 2) 0 = 0x04 ∧ buf.getD pos 0 = 20
    · have hcond : (buf.getD (pos + 2) 0 == 0x04) = true ∧
          (buf.getD pos 0 == 20) = true := by
        rw [hc.1, hc.2]
        exact ⟨rfl, rfl⟩
      rw [if_pos hcond] at hcc
      have h3 : 20 ≤ buf.length := of_decide_eq_true hcc
      rw [if_pos h2, if_pos hc, if_pos h3]
      rfl
    · have hncond : ¬((buf.getD (pos + 2) 0 == 0x04) = true ∧
          (buf.getD pos 0 == 20) = true) := by
        intro hcon
        exact hc ⟨eq_of_beq hcon.1, eq_of_beq hcon.2⟩
      rw [if_neg hncond] at hcc
      rw [Bool.and_eq_true] at hcc
      obtain ⟨h4f, h5⟩ := hcc
      have h4 : pos + buf.getD pos 0 ≤ buf.length := of_decide_eq_true h4f
      rw [if_pos h2, if_neg hc, if_pos h4]
      exact ih _ h5

set_option maxRecDepth 8000 in
/-- Claim C10 counterexample: the decode path is not total over buffers
whose 5-byte header validates. The 6-byte buffer [5, 0x0f, 6, 0, 1, 20]
passes from_data, but the capability walk reads past the end of the buffer
(one capability is announced and only one byte follows) and panics; and a
300-byte buffer with a valid header makes from_data itself panic while
copying into the 256-byte backing array. -/
theorem C10_counterexample :
    BinaryObjectStoreDescriptor.from_data [5, 0x0f, 6, 0, 1, 20] =
      some ⟨[5, 0x0f, 6, 0, 1, 20]⟩ ∧
    BinaryObjectStoreDescriptor.container_id ⟨[5, 0x0f, 6, 0, 1, 20]⟩ = none ∧
    BinaryObjectStoreDescriptor.from_data ([5, 0x0f, 44, 1] ++ List.replicate 296 7) =
      none := by
  exact ⟨by decide, by decide, by decide⟩

/-- Claim C10 (amended): from_data completes without a panic for every
buffer whose 5-byte header validates and whose length is at most 256; and
the capability walk of container_id completes without a panic whenever
every visited record keeps its three header bytes inside the buffer,
carries descriptor type 0x10, and either is a Container ID record inside
a buffer of at least 20 bytes or advances without leaving the buffer. -/
theorem C10_bos_totality_amended (data buf : List Nat) (pos count : Nat)
    (h5 : 5 ≤ data.length) (h0 : data.getD 0 0 = 5) (h1 : data.getD 1 0 = 0x0f)
    (htot : data.getD 2 0 + 256 * data.getD 3 0 = data.length)
    (hmax : data.length ≤ 256)
    (hwalk : BinaryObjectStoreDescriptor.walk_ok buf pos count = true) :
    BinaryObjectStoreDescriptor.from_data data = some ⟨data⟩ ∧
    (BinaryObjectStoreDescriptor.capability_walk buf pos count).isSome = true := by
  refine ⟨?_, capability_walk_total buf count pos hwalk⟩
  rw [BinaryObjectStoreDescriptor.from_data, if_pos ⟨h5, h0, h1, htot, hmax⟩]

/-- Claim C10 witness: the amended statement evaluated on a well-formed
24-byte single-record buffer. -/
theorem C10_witness :
    BinaryObjectStoreDescriptor.from_data
        (encode_container_id_bos (List.replicate 16 7)) =
      some ⟨encode_container_id_bos (List.replicate 16 7)⟩ ∧
    (BinaryObjectStoreDescriptor.capability_walk
        (encode_container_id_bos (List.replicate 16 7)) 5 1).isSome = true :=
  C10_bos_totality_amended (encode_container_id_bos (List.replicate 16 7))
    (encode_container_id_bos (List.replicate 16 7)) 5 1
    (by decide) (by decide) (by decide) (by decide) (by decide) (by decide)
